import Mathlib

/-
Verification of the comparative post-processing driver rungeneric2
(cocopp.rungeneric2, function main) against its specification.

The embedding models the data sets handled by main, the option
processing, the noise filtering, the instance-set check, the
noise-category mismatch check, and the per-dimension report dispatch
loops as pure Lean functions.  Side effects of main (warnings issued,
files written, report generators invoked) are modelled as a trace of
events; the outcome of main (return value, exceptions, exits) is
modelled as an explicit sum type.
-/

namespace Coco

/-- A single run record (one data set of pproc.DataSetList).  Fields are
the attributes of a data set that main reads: the algorithm id, the
target function id, the problem dimension, the noise category key used
by dictByNoise, the function-group key used by dictByFuncGroup, the
instance numbers of the runs, and whether the data is bi-objective. -/
structure DataSet where
  algId : String
  funcId : Nat
  dim : Nat
  noiseGroup : String
  funcGroup : String
  instancenumbers : List Nat
  biobjective : Bool
deriving DecidableEq, Repr

/-- A DataSetList is a list of run records. -/
abbrev DSL := List DataSet

/-- Modelled from the spec: DataSetList.dictByDim (module pproc, not in
src) partitions a collection by dimension; the group of a key holds
exactly the records with that dimension. -/
def byDim (l : DSL) (d : Nat) : DSL := l.filter (fun x => x.dim = d)

/-- Modelled from the spec: the key set of DataSetList.dictByDim -- the
distinct dimensions occurring in the collection. -/
def dimKeys (l : DSL) : List Nat := (l.map (fun x => x.dim)).dedup

/-- Modelled from the spec: DataSetList.dictByFuncGroup group of a key. -/
def byFG (l : DSL) (g : String) : DSL := l.filter (fun x => x.funcGroup = g)

/-- Modelled from the spec: the key set of DataSetList.dictByFuncGroup. -/
def fgKeys (l : DSL) : List String := (l.map (fun x => x.funcGroup)).dedup

/-- Modelled from the spec: DataSetList.dictByNoise group of a key. -/
def byNoise (l : DSL) (g : String) : DSL := l.filter (fun x => x.noiseGroup = g)

/-- Modelled from the spec: the key set of DataSetList.dictByNoise. -/
def noiseKeys (l : DSL) : List String := (l.map (fun x => x.noiseGroup)).dedup

/-- The dimensions present in both partitions dictDim0 and dictDim1:
set(dictDim0.keys()) and set(dictDim1.keys()) intersected. -/
def interDims (ds0 ds1 : DSL) : List Nat :=
  (dimKeys ds0).filter (fun d => d ∈ dimKeys ds1)

/-- Function groups present in both dictFG0 and dictFG1. -/
def interFG (a b : DSL) : List String :=
  (fgKeys a).filter (fun g => g ∈ fgKeys b)

/-- Noise groups present in both dictFN0 and dictFN1. -/
def interFN (a b : DSL) : List String :=
  (noiseKeys a).filter (fun g => g ∈ noiseKeys b)

/-- curr_instances of rungeneric2 line 243: the multiset of instance
numbers of a data set as a mapping from instance number to
multiplicity. -/
def currInstances (l : List Nat) : List (Nat × Nat) :=
  l.dedup.map (fun j => (j, l.count j))

/-- Equality of two instance-count dictionaries as finite maps (Python
dict equality): same keys with the same values. -/
def dictEqB (a b : List (Nat × Nat)) : Bool :=
  (a.all fun p => b.lookup p.1 == some p.2) && (b.all fun p => a.lookup p.1 == some p.2)

/-- The membership test of rungeneric2 lines 244-247: whether the
current instance multiset equals some instance set of interest. -/
def instanceMatches (ioi : List (List (Nat × Nat))) (curr : List (Nat × Nat)) : Bool :=
  ioi.any (fun st => dictEqB curr st)

/-- Which group of records a report generator was called on:
the all-functions group, a function group, or a noise group. -/
inductive GroupSel where
  | all
  | fg (g : String)
  | fn (g : String)
deriving DecidableEq, Repr

/-- The observable effects of a run of main, as a trace: warnings
issued via warnings.warn, files written, and report generators
invoked with their data arguments. -/
inductive Event where
  | warnOptionNoEffect (o : String)
  | warnInstances (funcId : Nat)
  | warnTooManyAlgs (algs : List String)
  | warnMixedNoise
  | warnMissingData (dim : Nat)
  | warnMissingDataComp (dim : Nat)
  | wroteHtml (page : String)
  | prependLatex (tag : String)
  | ensureDirs
  | callFig2
  | callRld2 (dim : Nat) (sel : GroupSel) (a b : DSL)
  | callComp (dim : Nat) (sel : GroupSel) (a b : DSL)
  | callGroupedEcdf (byNoi : Bool)
  | callAllSingleFcts
  | callScatter (a b : DSL)
  | callPptables (ng : String) (dim : Nat)
  | callPpfigs
deriving DecidableEq, Repr

/-- The module-level flags of the genericsettings module that main
reads or writes (rungeneric2 lines 148-194 and the phase guards). -/
structure Settings where
  verbose : Bool
  outputdir : String
  isFig : Bool
  isRLDistr : Bool
  isTab : Bool
  isScatter : Bool
  isScaleUp : Bool
  isNoisy : Bool
  isNoiseFree : Bool
  inputsettings : String
  isRldOnSingleFcts : Bool
  runlength_based_targets : Bool
  isExpensive : Bool
  generate_svg_files : Bool
deriving DecidableEq, Repr

/-- Modelled from the spec: the default values of the genericsettings
module are not in src; the option documentation of main (all output
categories produced unless restricted, default output directory
ppdata, default color settings) fixes them. -/
def defaultSettings : Settings :=
  { verbose := false
    outputdir := "ppdata"
    isFig := true
    isRLDistr := true
    isTab := true
    isScatter := true
    isScaleUp := true
    isNoisy := false
    isNoiseFree := false
    inputsettings := "color"
    isRldOnSingleFcts := true
    runlength_based_targets := false
    isExpensive := false
    generate_svg_files := true }

/-- The command line options recognized by the option loop of main
(rungeneric2 lines 149-194), one constructor per branch. -/
inductive Opt where
  | verbose
  | help
  | outputDir (a : String)
  | figOnly
  | rldOnly
  | tabOnly
  | scaOnly
  | noisy
  | noiseFree
  | settingsOpt (a : String)
  | noRldSingleFcts
  | runlengthBased
  | expensive
  | noSvg
  | losOnly
  | craftingEffort
  | pickle
deriving DecidableEq, Repr

/-- The effect of one option on the genericsettings flags (rungeneric2
lines 149-194).  Options that do not assign a genericsettings variable
(help, -o, and the three warned-about no-effect options) leave the
settings unchanged. -/
def applyOpt (s : Settings) (o : Opt) : Settings :=
  match o with
  | Opt.verbose => { s with verbose := true }
  | Opt.figOnly => { s with isRLDistr := false, isTab := false, isScatter := false }
  | Opt.rldOnly => { s with isFig := false, isTab := false, isScatter := false }
  | Opt.tabOnly => { s with isFig := false, isRLDistr := false, isScatter := false }
  | Opt.scaOnly => { s with isFig := false, isRLDistr := false, isTab := false }
  | Opt.noisy => { s with isNoisy := true }
  | Opt.noiseFree => { s with isNoiseFree := true }
  | Opt.settingsOpt a => { s with inputsettings := a }
  | Opt.noRldSingleFcts => { s with isRldOnSingleFcts := false }
  | Opt.runlengthBased => { s with runlength_based_targets := true }
  | Opt.expensive => { s with isExpensive := true }
  | Opt.noSvg => { s with generate_svg_files := false }
  | _ => s

/-- One step of the option loop: the -h branch calls sys.exit (modelled
as none), the -o branch sets the local outputdir variable, the three
no-effect options warn, and every other option updates the
genericsettings flags via applyOpt. -/
def stepOpt (st : Settings × String × List Event) (o : Opt) :
    Option (Settings × String × List Event) :=
  match o with
  | Opt.help => none
  | Opt.outputDir a => some (st.1, a, st.2.2)
  | Opt.losOnly => some (st.1, st.2.1, st.2.2 ++ [Event.warnOptionNoEffect "los-only"])
  | Opt.craftingEffort => some (st.1, st.2.1, st.2.2 ++ [Event.warnOptionNoEffect "crafting-effort"])
  | Opt.pickle => some (st.1, st.2.1, st.2.2 ++ [Event.warnOptionNoEffect "pickle"])
  | _ => some (applyOpt st.1 o, st.2.1, st.2.2)

/-- The option loop of main (rungeneric2 lines 149-194): processes the
options in order; returns none when -h or --help exits. -/
def processOpts : List Opt → Settings → String → List Event →
    Option (Settings × String × List Event)
  | [], s, od, ws => some (s, od, ws)
  | o :: rest, s, od, ws =>
    (stepOpt (s, od, ws) o).bind (fun st1 => processOpts rest st1.1 st1.2.1 st1.2.2)

/-- Modelled from the spec: the values taken from the selected input
settings module (genericsettings, grayscalesettings or bwsettings, not
in src): the instance sets of interest used by the check at lines
244-247, and the dimensions of interest of the runlength distribution
loops (inset.rldDimsOfInterest). -/
structure Inset where
  instancesOfInterest : List (List (Nat × Nat))
  rldDimsOfInterest : List Nat

/-- The environment of a run: values read from modules not in src.
Modelled from the spec: dimensionsToDisplay is the value of
genericsettings.dimensions_to_display; pprldistr2Fails dim (resp.
pprldistrCompFails dim) states whether the call of pprldistr2.main
(resp. pprldistr.comp) on the dimension-dim data raises KeyError,
the missing per-dimension data condition; biObjTestbed states whether
the current testbed is one of the two GECCO bi-objective testbeds
(line 476); basename is the final path component extracted at lines
270-271 via os.path.split. -/
structure Env where
  inset : Inset
  dimensionsToDisplay : List Nat
  pprldistr2Fails : Nat → Bool
  pprldistrCompFails : Nat → Bool
  biObjTestbed : Bool
  basename : String → String

/-- The input of a run of main.  getoptResult models the outcome of
getopt.getopt on argv (an error message on bad option syntax).
Modelled from the spec: the remaining fields are the result
(dsList, sortedAlgs, dictAlg) of processInputArgs (module pproc, not
in src), which loads the per-run performance records of the input
folders grouped into one collection per algorithm. -/
structure Input where
  getoptResult : Except String (List Opt × List String)
  dsList : DSL
  sortedAlgs : List String
  dictAlg : List (String × DSL)

/-- How the try block of main ends when no Usage exception is raised:
a sys.exit from -h or empty argument list, a sys.exit from empty or
mixed bi-objective data, a propagating ValueError from the
two-algorithms count check, or normal completion with the returned
dictionary. -/
inductive BodyExit where
  | helpExit
  | earlyExit
  | valueErr (msg : String)
  | done (res : List (String × DSL))
deriving DecidableEq, Repr

/-- The observable outcome of main: sys.exit, a caught Usage exception
(message printed to stderr, return value 2), a propagating ValueError,
or the returned dictionary. -/
inductive Outcome where
  | helpExit
  | earlyExit
  | usageErr (msg : String)
  | valueErr (msg : String)
  | success (res : List (String × DSL))
deriving DecidableEq, Repr

/-- The value a caller of main observes: the integer 2 after a caught
Usage exception, the returned dictionary on normal completion, a
propagating ValueError, or SystemExit. -/
inductive PyResult where
  | intVal (n : Nat)
  | dictVal (d : List (String × DSL))
  | raisedValueError (msg : String)
  | systemExit
deriving DecidableEq, Repr

/-- The noise filtering of rungeneric2 lines 232-236: with --noisy and
not --noise-free keep only the nzall group, with --noise-free and not
--noisy keep only the noiselessall group (dictByNoise().get with an
empty default). -/
def noiseFilter (gs : Settings) (l : DSL) : DSL :=
  let l1 := if gs.isNoisy ∧ ¬gs.isNoiseFree then byNoise l "nzall" else l
  if gs.isNoiseFree ∧ ¬gs.isNoisy then byNoise l1 "noiselessall" else l1

/-- The in-place update of dictAlg by the noise filtering loop
(lines 232-236). -/
def filteredDictAlg (gs : Settings) (inp : Input) : List (String × DSL) :=
  inp.dictAlg.map (fun p => (p.1, noiseFilter gs p.2))

/-- The instance-set check of rungeneric2 lines 238-251: for every
data set whose dimension is among the dimensions to display, if its
instance multiset equals no instance set of interest, a warning naming
the function is issued.  The loop has no other effect. -/
def instanceWarnings (dtd : List Nat) (ioi : List (List (Nat × Nat))) (ds : DSL) :
    List Event :=
  ds.flatMap (fun i =>
    if i.dim ∈ dtd then
      if instanceMatches ioi (currInstances i.instancenumbers) then []
      else [Event.warnInstances i.funcId]
    else [])

/-- sortedAlgs[0]. -/
def alg0of (inp : Input) : String := inp.sortedAlgs.headD ""

/-- sortedAlgs[1]. -/
def alg1of (inp : Input) : String := inp.sortedAlgs.getD 1 ""

/-- Dictionary access dictAlg[key] (missing keys behave as an empty
collection; processInputArgs keys dictAlg by the entries of
sortedAlgs). -/
def lookupD (l : List (String × DSL)) (k : String) : DSL :=
  (((l.find? (fun p => p.1 == k)).map Prod.snd)).getD []

/-- dsList0 = dictAlg[sortedAlgs[0]] after noise filtering (line 261). -/
def dsList0of (gs : Settings) (inp : Input) : DSL :=
  lookupD (filteredDictAlg gs inp) (alg0of inp)

/-- dsList1 = dictAlg[sortedAlgs[1]] after noise filtering (line 265). -/
def dsList1of (gs : Settings) (inp : Input) : DSL :=
  lookupD (filteredDictAlg gs inp) (alg1of inp)

/-- dsList0 after the algorithm-id renaming of lines 273-275. -/
def dsList0r (env : Env) (gs : Settings) (inp : Input) : DSL :=
  (dsList0of gs inp).map (fun d => { d with algId := env.basename (alg0of inp) })

/-- dsList1 after the algorithm-id renaming of lines 276-278. -/
def dsList1r (env : Env) (gs : Settings) (inp : Input) : DSL :=
  (dsList1of gs inp).map (fun d => { d with algId := env.basename (alg1of inp) })

/-- The symmetric difference k1 ^ k0 of the noise-category key sets of
the two collections (rungeneric2 lines 312-316). -/
def noiseSymdiff (env : Env) (gs : Settings) (inp : Input) : List String :=
  let k0 := noiseKeys (dsList0r env gs inp)
  let k1 := noiseKeys (dsList1r env gs inp)
  k1.filter (fun g => g ∉ k0) ++ k0.filter (fun g => g ∉ k1)

/-- Lines 318-333: for each noise group in the symmetric difference,
the offending input folder paired with the plain-language name of the
group, when both are determined. -/
def mismatchPairs (alg0 alg1 : String) (k0 k1 : List String) (symdiff : List String) :
    List (String × String) :=
  symdiff.filterMap (fun g =>
    let tmp : Option String :=
      if g = "nzall" then some "noisy"
      else if g = "noiselessall" then some "noiseless" else none
    let tmp2 : Option String :=
      if g ∈ k0 then some alg0 else if g ∈ k1 then some alg1 else none
    match tmp, tmp2 with
    | some t, some t2 => some (t2, t)
    | _, _ => none)

/-- The grouping tmpdict.setdefault(tmp2, []).append(tmp) of line 333. -/
def groupPairs (ps : List (String × String)) : List (String × List String) :=
  (ps.map Prod.fst).dedup.map
    (fun k => (k, (ps.filter (fun p => p.1 = k)).map Prod.snd))

/-- The Usage message raised on a noise-category mismatch
(rungeneric2 lines 335-339). -/
def dataMismatchMsg (alg0 alg1 : String) (k0 k1 : List String) (symdiff : List String) :
    String :=
  let txt := (groupPairs (mismatchPairs alg0 alg1 k0 k1 symdiff)).map
    (fun p => "Only input folder " ++ p.1 ++ " lists " ++
      String.intercalate " and " p.2 ++ " data.")
  "Data Mismatch: \n  " ++ String.intercalate " " txt ++
    "\nTry using --noise-free or --noisy flags."

/-- The Usage message of lines 205-207 for a bad --settings value. -/
def settingsErrMsg (s : String) : String :=
  "Settings: " ++ s ++ " is not an appropriate argument for input flag \"--settings\"."

/-- The ValueError message of lines 220-223. -/
def needTwoMsg (algs : List String) : String :=
  "rungeneric2.py needs exactly two algorithms to compare, found: " ++
    String.intercalate ", " algs ++
    "\n use rungeneric.py (or rungenericmany.py) to compare more algorithms. "

/-- The dead-code Usage message of lines 254-255. -/
def expectTwoMsg : String :=
  "Expect data from two different algorithms, could only find one."

/-- The Usage message of lines 263 and 267 (the second site also
reports sortedAlgs[0], as the code does). -/
def missingDataMsg (alg : String) : String :=
  "Could not find data for algorithm " ++ alg ++ "."

/-- One iteration of the ECDF-of-aRT-ratios dimension loop
(rungeneric2 lines 411-441): for a dimension of interest, invoke
pprldistr2.main on the aligned pair; on KeyError warn and continue,
otherwise also invoke it per common function group and per common
noise group. -/
def rld2ForDim (env : Env) (ds0 ds1 : DSL) (dim : Nat) : List Event :=
  if dim ∈ env.inset.rldDimsOfInterest then
    Event.callRld2 dim GroupSel.all (byDim ds0 dim) (byDim ds1 dim) ::
      (if env.pprldistr2Fails dim then [Event.warnMissingData dim]
       else
         (interFG (byDim ds0 dim) (byDim ds1 dim)).map
           (fun g => Event.callRld2 dim (GroupSel.fg g)
             (byFG (byDim ds1 dim) g) (byFG (byDim ds0 dim) g)) ++
         (interFN (byDim ds0 dim) (byDim ds1 dim)).map
           (fun g => Event.callRld2 dim (GroupSel.fn g)
             (byNoise (byDim ds1 dim) g) (byNoise (byDim ds0 dim) g)))
  else []

/-- One iteration of the ECDF runlength graphs dimension loop
(rungeneric2 lines 479-512), invoking pprldistr.comp. -/
def compForDim (env : Env) (ds0 ds1 : DSL) (dim : Nat) : List Event :=
  if dim ∈ env.inset.rldDimsOfInterest then
    Event.callComp dim GroupSel.all (byDim ds1 dim) (byDim ds0 dim) ::
      (if env.pprldistrCompFails dim then [Event.warnMissingDataComp dim]
       else
         (interFG (byDim ds0 dim) (byDim ds1 dim)).map
           (fun g => Event.callComp dim (GroupSel.fg g)
             (byFG (byDim ds1 dim) g) (byFG (byDim ds0 dim) g)) ++
         (interFN (byDim ds0 dim) (byDim ds1 dim)).map
           (fun g => Event.callComp dim (GroupSel.fn g)
             (byNoise (byDim ds1 dim) g) (byNoise (byDim ds0 dim) g)))
  else []

/-- The run length distribution section of main (rungeneric2 lines
402-525), guarded by genericsettings.isRLDistr. -/
def rldPhase (env : Env) (gs : Settings) (ds0 ds1 : DSL) : List Event :=
  if gs.isRLDistr then
    (if 1 < (noiseKeys ds0).length ∨ 1 < (noiseKeys ds1).length
     then [Event.warnMixedNoise] else []) ++
    (interDims ds0 ds1).flatMap (rld2ForDim env ds0 ds1) ++
    [Event.prependLatex "bbobpprldistrlegendtwo"] ++
    [Event.callGroupedEcdf true, Event.callGroupedEcdf false] ++
    (if env.biObjTestbed then []
     else (interDims ds0 ds1).flatMap (compForDim env ds0 ds1)) ++
    (if gs.isRldOnSingleFcts then [Event.callAllSingleFcts] else [])
  else []

/-- The aRT-ratio figure section (lines 383-393), guarded by isFig. -/
def figEvents (gs : Settings) : List Event :=
  if gs.isFig then [Event.callFig2] else []

/-- The scatter plot section (lines 529-542), guarded by isScatter;
ppscatter.main receives (dsList1, dsList0). -/
def scatterEvents (gs : Settings) (a b : DSL) : List Event :=
  if gs.isScatter then
    [Event.callScatter a b, Event.prependLatex "bbobppscatterlegend"]
  else []

/-- Modelled from the spec: the noise keys of pproc.dictAlgByNoi
applied to dictAlg (module pproc, not in src): the noise groups
occurring in the collection of some algorithm. -/
def dictAlgNoiseKeys (dA : List (String × DSL)) : List String :=
  (dA.flatMap (fun p => noiseKeys p.2)).dedup

/-- Modelled from the spec: the dimension keys of pproc.dictAlgByDim
of the collections restricted to one noise group. -/
def dictAlgDimKeysFor (dA : List (String × DSL)) (ng : String) : List Nat :=
  (dA.flatMap (fun p => dimKeys (byNoise p.2 ng))).dedup

/-- The table section (lines 544-562), guarded by isTab: one
pptables.main call per noise group and dimension of the grouped
dictAlg. -/
def tabPhase (gs : Settings) (dA : List (String × DSL)) : List Event :=
  if gs.isTab then
    Event.prependLatex "bbobpptablesmanylegend" ::
      (dictAlgNoiseKeys dA).flatMap
        (fun ng => (dictAlgDimKeysFor dA ng).map (fun d => Event.callPptables ng d))
  else []

/-- The scaling figure section (lines 564-579), guarded by isScaleUp. -/
def scaleEvents (gs : Settings) : List Event :=
  if gs.isScaleUp then [Event.callPpfigs] else []

/-- The events of the instance-set check loop (lines 238-251). -/
def restEvents1 (env : Env) (inp : Input) : List Event :=
  instanceWarnings env.dimensionsToDisplay env.inset.instancesOfInterest inp.dsList

/-- The events up to and including the more-than-two-algorithms
warning of lines 256-258. -/
def restEvents2 (env : Env) (inp : Input) : List Event :=
  restEvents1 env inp ++
    (if 2 < inp.sortedAlgs.length then [Event.warnTooManyAlgs inp.sortedAlgs] else [])

/-- The events up to the noise-mismatch check (lines 284-309): the
algsfolder LaTeX fragment, and, when some output category is active,
the output directories and the algorithm-name LaTeX fragment. -/
def preMismatchEvents (env : Env) (gs : Settings) (inp : Input) : List Event :=
  restEvents2 env inp ++ [Event.prependLatex "algsfolder"] ++
    (if gs.isFig ∨ gs.isRLDistr ∨ gs.isTab ∨ gs.isScatter
     then [Event.ensureDirs, Event.prependLatex "algorithm-names"] else [])

/-- Modelled from the spec: the returned value
DataSetList(dsList).dictByAlg() (module pproc, not in src): the full
collection grouped by algorithm id.  (In the Python code the records
aliased by dsList0 and dsList1 carry the renamed algorithm ids at this
point; the grouping shape is all later stages use.) -/
def dictByAlgRes (l : DSL) : List (String × DSL) :=
  (l.map (fun d => d.algId)).dedup.map
    (fun a => (a, l.filter (fun d => d.algId = a)))

/-- The full event trace of a successful run past the noise-mismatch
check (rungeneric2 lines 341-593). -/
def successEvents (env : Env) (gs : Settings) (inp : Input) : List Event :=
  preMismatchEvents env gs inp ++
    [Event.wroteHtml "ppfigs", Event.wroteHtml "ppscatter",
     Event.wroteHtml "pprldistr2", Event.wroteHtml "pptables"] ++
    figEvents gs ++
    rldPhase env gs (dsList0r env gs inp) (dsList1r env gs inp) ++
    scatterEvents gs (dsList1r env gs inp) (dsList0r env gs inp) ++
    tabPhase gs (filteredDictAlg gs inp) ++
    scaleEvents gs ++
    [Event.wroteHtml "two-algorithms"]

/-- The part of the try block of main from the dsList emptiness check
on (rungeneric2 lines 225-600): early exits, noise filtering, the
instance check, the algorithm lookups, the noise-mismatch check, and
the post-processing phases.  Except.error carries a raised Usage
exception with the events issued before it. -/
def mainRest (env : Env) (gs : Settings) (inp : Input) :
    Except (String × List Event) (BodyExit × List Event) :=
  if inp.dsList = [] then Except.ok (BodyExit.earlyExit, [])
  else if (inp.dsList.any fun d => d.biobjective) ∧
          (inp.dsList.any fun d => !d.biobjective) then
    Except.ok (BodyExit.earlyExit, [])
  else if inp.sortedAlgs.length < 2 then
    Except.error (expectTwoMsg, restEvents2 env inp)
  else if dsList0of gs inp = [] then
    Except.error (missingDataMsg (alg0of inp), restEvents2 env inp)
  else if dsList1of gs inp = [] then
    Except.error (missingDataMsg (alg0of inp), restEvents2 env inp)
  else if noiseSymdiff env gs inp ≠ [] then
    Except.error
      (dataMismatchMsg (alg0of inp) (alg1of inp)
        (noiseKeys (dsList0r env gs inp)) (noiseKeys (dsList1r env gs inp))
        (noiseSymdiff env gs inp),
       preMismatchEvents env gs inp)
  else
    Except.ok (BodyExit.done (dictByAlgRes inp.dsList), successEvents env gs inp)

/-- The try block of main (rungeneric2 lines 137-600): getopt, the
empty-argument exit, option processing, the --settings validity check,
the exactly-two-algorithms ValueError, then mainRest. -/
def mainBody (env : Env) (inp : Input) :
    Except (String × List Event) (BodyExit × List Event) :=
  match inp.getoptResult with
  | Except.error msg => Except.error (msg, [])
  | Except.ok (opts, args) =>
    if args = [] then Except.ok (BodyExit.helpExit, [])
    else
      match processOpts opts defaultSettings defaultSettings.outputdir [] with
      | none => Except.ok (BodyExit.helpExit, [])
      | some (gs, _od, ws) =>
        if gs.inputsettings = "color" ∨ gs.inputsettings = "grayscale" ∨
           gs.inputsettings = "black-white" then
          if 1 < 3 ∧ inp.sortedAlgs.length ≠ 2 then
            Except.ok (BodyExit.valueErr (needTwoMsg inp.sortedAlgs), ws)
          else
            match mainRest env gs inp with
            | Except.error (m, evts) => Except.error (m, ws ++ evts)
            | Except.ok (b, evts) => Except.ok (b, ws ++ evts)
        else Except.error (settingsErrMsg gs.inputsettings, ws)

/-- main with the except-Usage handler of lines 595-598: a raised
Usage exception is caught, its message printed to stderr, and 2
returned. -/
def main (env : Env) (inp : Input) : Outcome × List Event :=
  match mainBody env inp with
  | Except.error (m, evts) => (Outcome.usageErr m, evts)
  | Except.ok (BodyExit.helpExit, evts) => (Outcome.helpExit, evts)
  | Except.ok (BodyExit.earlyExit, evts) => (Outcome.earlyExit, evts)
  | Except.ok (BodyExit.valueErr m, evts) => (Outcome.valueErr m, evts)
  | Except.ok (BodyExit.done r, evts) => (Outcome.success r, evts)

/-- The value a caller of main observes. -/
def mainResult (env : Env) (inp : Input) : PyResult :=
  match (main env inp).1 with
  | Outcome.usageErr _ => PyResult.intVal 2
  | Outcome.success d => PyResult.dictVal d
  | Outcome.valueErr m => PyResult.raisedValueError m
  | Outcome.helpExit => PyResult.systemExit
  | Outcome.earlyExit => PyResult.systemExit

/-- Whether an event is an invocation of a report generator. -/
def isReportCall : Event → Bool
  | Event.callFig2 => true
  | Event.callRld2 _ _ _ _ => true
  | Event.callComp _ _ _ _ => true
  | Event.callGroupedEcdf _ => true
  | Event.callAllSingleFcts => true
  | Event.callScatter _ _ => true
  | Event.callPptables _ _ => true
  | Event.callPpfigs => true
  | _ => false

/-- Whether an event writes an output artifact or invokes a report
generator (as opposed to a warning). -/
def isOutputEvent : Event → Bool
  | Event.wroteHtml _ => true
  | Event.prependLatex _ => true
  | Event.ensureDirs => true
  | e => isReportCall e

/-- Whether an event names the given dimension (a per-dimension report
invocation, table call or per-dimension warning). -/
def eventMentionsDim (d : Nat) : Event → Bool
  | Event.warnMissingData d2 => d = d2
  | Event.warnMissingDataComp d2 => d = d2
  | Event.callRld2 d2 _ _ _ => d = d2
  | Event.callComp d2 _ _ _ => d = d2
  | Event.callPptables _ d2 => d = d2
  | _ => false

/-- The four output-category restriction options of main. -/
def onlyOpts : List Opt := [Opt.figOnly, Opt.rldOnly, Opt.tabOnly, Opt.scaOnly]

/-- The events of a mainRest result, whether a Usage was raised or not. -/
def traceOfRest : Except (String × List Event) (BodyExit × List Event) → List Event
  | Except.error (_, evts) => evts
  | Except.ok (_, evts) => evts

/-- A concrete input-settings module for concrete runs. -/
def insetW : Inset :=
  { instancesOfInterest := [[(1, 1)]]
    rldDimsOfInterest := [2, 3, 5, 10, 20, 40] }

/-- A concrete environment: no missing per-dimension data, single-objective
testbed, identity path stripping. -/
def envW : Env :=
  { inset := insetW
    dimensionsToDisplay := [2, 3, 5, 10, 20, 40]
    pprldistr2Fails := fun _ => false
    pprldistrCompFails := fun _ => false
    biObjTestbed := false
    basename := fun s => s }

/-- A concrete environment where the per-dimension data of dimension 2
is missing (pprldistr2.main and pprldistr.comp raise KeyError there). -/
def envFailW : Env :=
  { envW with
    pprldistr2Fails := fun d => d == 2
    pprldistrCompFails := fun d => d == 2 }

/-- A concrete run record of the first algorithm. -/
def dsA : DataSet :=
  { algId := "algA", funcId := 1, dim := 2, noiseGroup := "noiselessall",
    funcGroup := "separ", instancenumbers := [1], biobjective := false }

/-- A concrete run record of the second algorithm. -/
def dsB : DataSet := { dsA with algId := "algB" }

/-- A noisy-category variant of dsA. -/
def dsANoisy : DataSet := { dsA with noiseGroup := "nzall" }

/-- A run record with a dimension outside the dimensions to display and
instances matching no instance set of interest. -/
def dsOdd : DataSet := { dsA with dim := 7, funcId := 5, instancenumbers := [3] }

/-- A second-dimension variant of dsA, for per-dimension loop runs. -/
def dsA3 : DataSet := { dsA with dim := 3 }

/-- A second-dimension variant of dsB. -/
def dsB3 : DataSet := { dsB with dim := 3 }

/-- A well-formed concrete input: two algorithms, matching noise
categories, no options. -/
def inpGood : Input :=
  { getoptResult := Except.ok ([], ["fA", "fB"])
    dsList := [dsA, dsB]
    sortedAlgs := ["fA", "fB"]
    dictAlg := [("fA", [dsA]), ("fB", [dsB])] }

/-- A concrete input whose two collections disagree on noise
categories: the first algorithm lists only noisy data, the second only
noise-free data. -/
def inpMismatch : Input :=
  { inpGood with
    dsList := [dsANoisy, dsB]
    dictAlg := [("fA", [dsANoisy]), ("fB", [dsB])] }

/-- A concrete input containing a data set (dsOdd) whose dimension is
outside the dimensions to display and whose instances match no
instance set of interest. -/
def inpOdd : Input :=
  { inpGood with
    dsList := [dsOdd, dsA, dsB]
    dictAlg := [("fA", [dsOdd, dsA]), ("fB", [dsB])] }

/-- A run record with a displayed dimension but instances matching no
instance set of interest. -/
def dsOddDisplayed : DataSet := { dsA with funcId := 9, instancenumbers := [3] }

/-- A concrete input where the displayed record of the first algorithm lists
the wrong instances. -/
def inpOddDisplayed : Input :=
  { inpGood with
    dsList := [dsOddDisplayed, dsB]
    dictAlg := [("fA", [dsOddDisplayed]), ("fB", [dsB])] }

/-- A concrete input with an unknown --settings value. -/
def inpBad : Input :=
  { inpGood with getoptResult := Except.ok ([Opt.settingsOpt "weird"], ["fA", "fB"]) }

/-- A concrete input for which processInputArgs found three algorithms. -/
def inpThree : Input :=
  { inpGood with sortedAlgs := ["fA", "fB", "fC"] }

/-- Settings with both --noisy and --noise-free given. -/
def gsBoth : Settings := { defaultSettings with isNoisy := true, isNoiseFree := true }

/-- The settings resulting from combining --fig-only with --rld-only:
all four output-category flags disabled. -/
def gsNone : Settings :=
  { defaultSettings with
    isFig := false, isRLDistr := false, isTab := false, isScatter := false }

section Lemmas

/-- Membership in the dimension key set. -/
theorem mem_dimKeys {l : DSL} {d : Nat} :
    d ∈ dimKeys l ↔ ∃ x ∈ l, x.dim = d := by
  simp [dimKeys, List.mem_dedup]

/-- Membership in the intersection of the two dimension key sets. -/
theorem mem_interDims {ds0 ds1 : DSL} {d : Nat} :
    d ∈ interDims ds0 ds1 ↔ d ∈ dimKeys ds0 ∧ d ∈ dimKeys ds1 := by
  simp [interDims, List.mem_filter]

/-- The settings component of a successful option step is applyOpt. -/
theorem stepOpt_settings {s : Settings} {od : String} {ws : List Event}
    {o : Opt} {st1 : Settings × String × List Event}
    (h : stepOpt (s, od, ws) o = some st1) : st1.1 = applyOpt s o := by
  cases o <;> simp [stepOpt, applyOpt] at h <;> simp [← h, applyOpt]

/-- The events of a successful option step extend the incoming events
only by no-effect warnings. -/
theorem stepOpt_events {s : Settings} {od : String} {ws : List Event}
    {o : Opt} {st1 : Settings × String × List Event}
    (h : stepOpt (s, od, ws) o = some st1) :
    ∀ e ∈ st1.2.2, e ∈ ws ∨ ∃ nm, e = Event.warnOptionNoEffect nm := by
  cases o <;> simp [stepOpt] at h <;> intro e he <;> simp [← h] at he <;>
    first
      | exact Or.inl he
      | (rcases he with he | he
         · exact Or.inl he
         · exact Or.inr ⟨_, he⟩)

/-- A Boolean projection of the settings that no single option can
change away from v stays at v through the option loop. -/
theorem processOpts_proj_stable {α : Type} (proj : Settings → α) (v : α)
    (hmono : ∀ s o, proj s = v → proj (applyOpt s o) = v) :
    ∀ (opts : List Opt) (s : Settings) (od : String) (ws : List Event)
      (s' : Settings) (od' : String) (ws' : List Event),
      processOpts opts s od ws = some (s', od', ws') → proj s = v → proj s' = v := by
  intro opts
  induction opts with
  | nil =>
    intro s od ws s' od' ws' h hv
    simp [processOpts] at h
    rw [← h.1]; exact hv
  | cons o rest ih =>
    intro s od ws s' od' ws' h hv
    cases ho : stepOpt (s, od, ws) o with
    | none => simp [processOpts, ho] at h
    | some st1 =>
      simp only [processOpts, ho, Option.some_bind] at h
      have hs1 : st1.1 = applyOpt s o := stepOpt_settings ho
      exact ih st1.1 st1.2.1 st1.2.2 s' od' ws' h (by rw [hs1]; exact hmono s o hv)

/-- If some option in the list forces a Boolean projection of the
settings to v, and no option can change it away from v, the final
settings have it at v. -/
theorem processOpts_proj_of_mem {α : Type} (proj : Settings → α) (v : α)
    (hmono : ∀ s o, proj s = v → proj (applyOpt s o) = v) (o0 : Opt)
    (hset : ∀ t, proj (applyOpt t o0) = v) :
    ∀ (opts : List Opt) (s : Settings) (od : String) (ws : List Event)
      (s' : Settings) (od' : String) (ws' : List Event),
      o0 ∈ opts → processOpts opts s od ws = some (s', od', ws') → proj s' = v := by
  intro opts
  induction opts with
  | nil => intro s od ws s' od' ws' hmem _; exact absurd hmem (List.not_mem_nil o0)
  | cons o rest ih =>
    intro s od ws s' od' ws' hmem h
    cases ho : stepOpt (s, od, ws) o with
    | none => simp [processOpts, ho] at h
    | some st1 =>
      simp only [processOpts, ho, Option.some_bind] at h
      have hs1 : st1.1 = applyOpt s o := stepOpt_settings ho
      rcases List.mem_cons.1 hmem with rfl | hmem'
      · exact processOpts_proj_stable proj v hmono rest st1.1 st1.2.1 st1.2.2 s' od' ws' h
          (by rw [hs1]; exact hset s)
      · exact ih st1.1 st1.2.1 st1.2.2 s' od' ws' hmem' h

/-- The option loop only ever adds no-effect warnings to the event
list. -/
theorem processOpts_events :
    ∀ (opts : List Opt) (s : Settings) (od : String) (ws : List Event)
      (s' : Settings) (od' : String) (ws' : List Event),
      processOpts opts s od ws = some (s', od', ws') →
      ∀ e ∈ ws', e ∈ ws ∨ ∃ nm, e = Event.warnOptionNoEffect nm := by
  intro opts
  induction opts with
  | nil =>
    intro s od ws s' od' ws' h e he
    simp [processOpts] at h
    rw [← h.2.2] at he; exact Or.inl he
  | cons o rest ih =>
    intro s od ws s' od' ws' h e he
    cases ho : stepOpt (s, od, ws) o with
    | none => simp [processOpts, ho] at h
    | some st1 =>
      simp only [processOpts, ho, Option.some_bind] at h
      rcases ih st1.1 st1.2.1 st1.2.2 s' od' ws' h e he with h1 | h1
      · exact stepOpt_events ho e h1
      · exact Or.inr h1

/-- The try block past the count check never yields a ValueError. -/
theorem mainRest_ne_valueErr (env : Env) (gs : Settings) (inp : Input)
    (m : String) (evts : List Event) :
    mainRest env gs inp ≠ Except.ok (BodyExit.valueErr m, evts) := by
  intro h
  unfold mainRest at h
  repeat' split at h
  all_goals simp at h

/-- Every Usage message arising past the count check is the dead-code
two-algorithms message, a missing-algorithm-data message, or a noise
data-mismatch message. -/
theorem mainRest_error_forms (env : Env) (gs : Settings) (inp : Input)
    (m : String) (evts : List Event)
    (h : mainRest env gs inp = Except.error (m, evts)) :
    m = expectTwoMsg ∨ (∃ a, m = missingDataMsg a) ∨
      (∃ a b k0 k1 sd, m = dataMismatchMsg a b k0 k1 sd) := by
  unfold mainRest at h
  repeat' split at h
  all_goals simp at h
  · exact Or.inl h.1.symm
  · exact Or.inr (Or.inl ⟨_, h.1.symm⟩)
  · exact Or.inr (Or.inl ⟨_, h.1.symm⟩)
  · exact Or.inr (Or.inr ⟨_, _, _, _, _, h.1.symm⟩)

/-- Reduction of mainRest on a well-formed input. -/
theorem mainRest_done (env : Env) (gs : Settings) (inp : Input)
    (hne : inp.dsList ≠ [])
    (hbi : ¬((inp.dsList.any fun d => d.biobjective) ∧
             (inp.dsList.any fun d => !d.biobjective)))
    (hlt : ¬inp.sortedAlgs.length < 2)
    (h0 : dsList0of gs inp ≠ []) (h1 : dsList1of gs inp ≠ [])
    (hsym : noiseSymdiff env gs inp = []) :
    mainRest env gs inp =
      Except.ok (BodyExit.done (dictByAlgRes inp.dsList), successEvents env gs inp) := by
  unfold mainRest
  rw [if_neg hne, if_neg hbi, if_neg hlt, if_neg h0, if_neg h1,
    if_neg (by simp [hsym])]

/-- Reduction of mainRest on a noise-category mismatch. -/
theorem mainRest_mismatch (env : Env) (gs : Settings) (inp : Input)
    (hne : inp.dsList ≠ [])
    (hbi : ¬((inp.dsList.any fun d => d.biobjective) ∧
             (inp.dsList.any fun d => !d.biobjective)))
    (hlt : ¬inp.sortedAlgs.length < 2)
    (h0 : dsList0of gs inp ≠ []) (h1 : dsList1of gs inp ≠ [])
    (hsym : noiseSymdiff env gs inp ≠ []) :
    mainRest env gs inp =
      Except.error
        (dataMismatchMsg (alg0of inp) (alg1of inp)
          (noiseKeys (dsList0r env gs inp)) (noiseKeys (dsList1r env gs inp))
          (noiseSymdiff env gs inp),
         preMismatchEvents env gs inp) := by
  unfold mainRest
  rw [if_neg hne, if_neg hbi, if_neg hlt, if_neg h0, if_neg h1, if_pos hsym]

/-- Reduction of mainBody up to mainRest when the run reaches the
two-algorithms count check and passes it. -/
theorem mainBody_reach (env : Env) (inp : Input) (opts : List Opt)
    (args : List String) (gs : Settings) (od : String) (ws : List Event)
    (hg : inp.getoptResult = Except.ok (opts, args)) (ha : args ≠ [])
    (hp : processOpts opts defaultSettings defaultSettings.outputdir [] =
      some (gs, od, ws))
    (hs : gs.inputsettings = "color" ∨ gs.inputsettings = "grayscale" ∨
      gs.inputsettings = "black-white")
    (h2 : inp.sortedAlgs.length = 2) :
    mainBody env inp =
      match mainRest env gs inp with
      | Except.error (m, evts) => Except.error (m, ws ++ evts)
      | Except.ok (b, evts) => Except.ok (b, ws ++ evts) := by
  simp only [mainBody, hg, if_neg ha, hp, if_pos hs]
  rw [if_neg (by simp [h2])]

/-- Reduction of mainBody to the ValueError when the count check
fails. -/
theorem mainBody_valueErr (env : Env) (inp : Input) (opts : List Opt)
    (args : List String) (gs : Settings) (od : String) (ws : List Event)
    (hg : inp.getoptResult = Except.ok (opts, args)) (ha : args ≠ [])
    (hp : processOpts opts defaultSettings defaultSettings.outputdir [] =
      some (gs, od, ws))
    (hs : gs.inputsettings = "color" ∨ gs.inputsettings = "grayscale" ∨
      gs.inputsettings = "black-white")
    (h2 : inp.sortedAlgs.length ≠ 2) :
    mainBody env inp = Except.ok (BodyExit.valueErr (needTwoMsg inp.sortedAlgs), ws) := by
  simp only [mainBody, hg, if_neg ha, hp, if_pos hs]
  rw [if_pos ⟨by norm_num, h2⟩]

/-- The all-functions pprldistr2 invocation occurs in the body of the
dimension loop exactly for a dimension of interest, with the aligned
per-dimension collections. -/
theorem rld2ForDim_all_mem (env : Env) (ds0 ds1 : DSL) (d dim : Nat) (a b : DSL) :
    Event.callRld2 dim GroupSel.all a b ∈ rld2ForDim env ds0 ds1 d ↔
      dim = d ∧ d ∈ env.inset.rldDimsOfInterest ∧ a = byDim ds0 d ∧ b = byDim ds1 d := by
  constructor
  · intro h
    unfold rld2ForDim at h
    split at h
    · rename_i hint
      rcases List.mem_cons.1 h with he | h2
      · simp only [Event.callRld2.injEq] at he
        exact ⟨he.1, hint, he.2.2.1, he.2.2.2⟩
      · exfalso
        split at h2
        · simp at h2
        · simp at h2
    · exact absurd h (List.not_mem_nil _)
  · rintro ⟨rfl, hint, rfl, rfl⟩
    unfold rld2ForDim
    rw [if_pos hint]
    exact List.mem_cons_self _ _

/-- The all-functions pprldistr.comp invocation occurs in the body of
the second dimension loop exactly for a dimension of interest, with
the aligned per-dimension collections (first argument from dsList1). -/
theorem compForDim_all_mem (env : Env) (ds0 ds1 : DSL) (d dim : Nat) (a b : DSL) :
    Event.callComp dim GroupSel.all a b ∈ compForDim env ds0 ds1 d ↔
      dim = d ∧ d ∈ env.inset.rldDimsOfInterest ∧ a = byDim ds1 d ∧ b = byDim ds0 d := by
  constructor
  · intro h
    unfold compForDim at h
    split at h
    · rename_i hint
      rcases List.mem_cons.1 h with he | h2
      · simp only [Event.callComp.injEq] at he
        exact ⟨he.1, hint, he.2.2.1, he.2.2.2⟩
      · exfalso
        split at h2
        · simp at h2
        · simp at h2
    · exact absurd h (List.not_mem_nil _)
  · rintro ⟨rfl, hint, rfl, rfl⟩
    unfold compForDim
    rw [if_pos hint]
    exact List.mem_cons_self _ _

/-- Every event of one iteration of the pprldistr2 dimension loop
names the dimension of that iteration only. -/
theorem rld2ForDim_mentions (env : Env) (ds0 ds1 : DSL) (d x : Nat) (e : Event)
    (h : e ∈ rld2ForDim env ds0 ds1 d) (hm : eventMentionsDim x e = true) : x = d := by
  unfold rld2ForDim at h
  split at h
  · rcases List.mem_cons.1 h with rfl | h2
    · simpa [eventMentionsDim] using hm
    · split at h2
      · simp at h2
        subst h2
        simpa [eventMentionsDim] using hm
      · simp only [List.mem_append, List.mem_map] at h2
        rcases h2 with ⟨g, _, rfl⟩ | ⟨g, _, rfl⟩ <;> simpa [eventMentionsDim] using hm
  · exact absurd h (List.not_mem_nil _)

/-- Every event of one iteration of the pprldistr.comp dimension loop
names the dimension of that iteration only. -/
theorem compForDim_mentions (env : Env) (ds0 ds1 : DSL) (d x : Nat) (e : Event)
    (h : e ∈ compForDim env ds0 ds1 d) (hm : eventMentionsDim x e = true) : x = d := by
  unfold compForDim at h
  split at h
  · rcases List.mem_cons.1 h with rfl | h2
    · simpa [eventMentionsDim] using hm
    · split at h2
      · simp at h2
        subst h2
        simpa [eventMentionsDim] using hm
      · simp only [List.mem_append, List.mem_map] at h2
        rcases h2 with ⟨g, _, rfl⟩ | ⟨g, _, rfl⟩ <;> simpa [eventMentionsDim] using hm
  · exact absurd h (List.not_mem_nil _)

/-- Membership in the run length distribution phase decomposed into
its six chunks. -/
theorem mem_rldPhase_iff (env : Env) (gs : Settings) (ds0 ds1 : DSL) (e : Event)
    (hR : gs.isRLDistr = true) :
    e ∈ rldPhase env gs ds0 ds1 ↔
      (e ∈ (if 1 < (noiseKeys ds0).length ∨ 1 < (noiseKeys ds1).length
            then [Event.warnMixedNoise] else ([] : List Event)) ∨
       (∃ d ∈ interDims ds0 ds1, e ∈ rld2ForDim env ds0 ds1 d) ∨
       e = Event.prependLatex "bbobpprldistrlegendtwo" ∨
       e = Event.callGroupedEcdf true ∨ e = Event.callGroupedEcdf false ∨
       (env.biObjTestbed = false ∧ ∃ d ∈ interDims ds0 ds1, e ∈ compForDim env ds0 ds1 d) ∨
       (gs.isRldOnSingleFcts = true ∧ e = Event.callAllSingleFcts)) := by
  unfold rldPhase
  rw [if_pos hR]
  cases hb : env.biObjTestbed <;>
    cases hs : gs.isRldOnSingleFcts <;>
      simp [List.mem_append, List.mem_flatMap, hb, hs, or_assoc]

/-- The instance-set check only ever produces instance warnings. -/
theorem instanceWarnings_shape (dtd : List Nat) (ioi : List (List (Nat × Nat)))
    (ds : DSL) (e : Event) (h : e ∈ instanceWarnings dtd ioi ds) :
    ∃ f, e = Event.warnInstances f := by
  unfold instanceWarnings at h
  simp only [List.mem_flatMap] at h
  obtain ⟨i, _, hi⟩ := h
  split at hi
  · split at hi
    · simp at hi
    · simp at hi
      exact ⟨_, hi⟩
  · simp at hi

/-- A displayed data set matching no instance set of interest yields
its warning in the instance-set check. -/
theorem instanceWarnings_mem (dtd : List Nat) (ioi : List (List (Nat × Nat)))
    (ds : DSL) (i : DataSet) (hi : i ∈ ds) (hd : i.dim ∈ dtd)
    (hnm : instanceMatches ioi (currInstances i.instancenumbers) = false) :
    Event.warnInstances i.funcId ∈ instanceWarnings dtd ioi ds := by
  unfold instanceWarnings
  refine List.mem_flatMap.2 ⟨i, hi, ?_⟩
  rw [if_pos hd, if_neg (by simp [hnm])]
  simp

/-- Events of the instance-set check are events of the later stages. -/
theorem mem_restEvents2_of1 (env : Env) (inp : Input) (e : Event)
    (h : e ∈ restEvents1 env inp) : e ∈ restEvents2 env inp :=
  List.mem_append_left _ h

/-- Events up to the too-many-algorithms warning persist up to the
noise-mismatch check. -/
theorem mem_preMismatch_of2 (env : Env) (gs : Settings) (inp : Input) (e : Event)
    (h : e ∈ restEvents2 env inp) : e ∈ preMismatchEvents env gs inp :=
  List.mem_append_left _ (List.mem_append_left _ h)

/-- Events up to the noise-mismatch check persist in a full successful
trace. -/
theorem mem_success_of_pre (env : Env) (gs : Settings) (inp : Input) (e : Event)
    (h : e ∈ preMismatchEvents env gs inp) : e ∈ successEvents env gs inp := by
  unfold successEvents
  exact List.mem_append_left _ (List.mem_append_left _ (List.mem_append_left _
    (List.mem_append_left _ (List.mem_append_left _ (List.mem_append_left _
      (List.mem_append_left _ h))))))

/-- The possible events before the noise-mismatch check. -/
theorem preMismatch_shape (env : Env) (gs : Settings) (inp : Input) (e : Event)
    (h : e ∈ preMismatchEvents env gs inp) :
    (∃ f, e = Event.warnInstances f) ∨ e = Event.warnTooManyAlgs inp.sortedAlgs ∨
      e = Event.prependLatex "algsfolder" ∨ e = Event.ensureDirs ∨
      e = Event.prependLatex "algorithm-names" := by
  unfold preMismatchEvents restEvents2 at h
  rcases List.mem_append.1 h with h | h
  · rcases List.mem_append.1 h with h | h
    · rcases List.mem_append.1 h with h | h
      · exact Or.inl (instanceWarnings_shape _ _ _ _ h)
      · split at h
        · simp at h
          exact Or.inr (Or.inl h)
        · simp at h
    · simp at h
      exact Or.inr (Or.inr (Or.inl h))
  · split at h
    · simp at h
      rcases h with rfl | rfl
      · exact Or.inr (Or.inr (Or.inr (Or.inl rfl)))
      · exact Or.inr (Or.inr (Or.inr (Or.inr rfl)))
    · simp at h

/-- No report generator is invoked before the noise-mismatch check. -/
theorem preMismatch_no_call (env : Env) (gs : Settings) (inp : Input) (e : Event)
    (h : e ∈ preMismatchEvents env gs inp) : isReportCall e = false := by
  rcases preMismatch_shape env gs inp e h with ⟨f, rfl⟩ | rfl | rfl | rfl | rfl <;> rfl

/-- No option ever re-enables the isFig flag. -/
theorem applyOpt_isFig_mono (s : Settings) (o : Opt) (h : s.isFig = false) :
    (applyOpt s o).isFig = false := by
  cases o <;> simp [applyOpt, h]

/-- No option ever re-enables the isRLDistr flag. -/
theorem applyOpt_isRLDistr_mono (s : Settings) (o : Opt) (h : s.isRLDistr = false) :
    (applyOpt s o).isRLDistr = false := by
  cases o <;> simp [applyOpt, h]

/-- No option ever re-enables the isTab flag. -/
theorem applyOpt_isTab_mono (s : Settings) (o : Opt) (h : s.isTab = false) :
    (applyOpt s o).isTab = false := by
  cases o <;> simp [applyOpt, h]

/-- No option ever re-enables the isScatter flag. -/
theorem applyOpt_isScatter_mono (s : Settings) (o : Opt) (h : s.isScatter = false) :
    (applyOpt s o).isScatter = false := by
  cases o <;> simp [applyOpt, h]

/-- Two distinct output-restriction options force all four
output-category flags to false. -/
theorem allFourFalse (opts : List Opt) (o1 o2 : Opt) (s : Settings) (od : String)
    (ws : List Event) (s' : Settings) (od' : String) (ws' : List Event)
    (h1 : o1 ∈ onlyOpts) (h2 : o2 ∈ onlyOpts) (hne : o1 ≠ o2)
    (hm1 : o1 ∈ opts) (hm2 : o2 ∈ opts)
    (hp : processOpts opts s od ws = some (s', od', ws')) :
    s'.isFig = false ∧ s'.isRLDistr = false ∧ s'.isTab = false ∧ s'.isScatter = false := by
  have pick : ∀ x : Opt, x ∈ onlyOpts → ∃ o ∈ opts, o ∈ onlyOpts ∧ o ≠ x := by
    intro x _
    by_cases hx : o1 = x
    · exact ⟨o2, hm2, h2, fun hh => hne (hx.trans hh.symm)⟩
    · exact ⟨o1, hm1, h1, hx⟩
  have killF : ∀ o : Opt, o ∈ onlyOpts → o ≠ Opt.figOnly →
      ∀ t : Settings, (applyOpt t o).isFig = false := by
    intro o ho hno t
    simp [onlyOpts] at ho
    rcases ho with rfl | rfl | rfl | rfl
    · exact absurd rfl hno
    · rfl
    · rfl
    · rfl
  have killR : ∀ o : Opt, o ∈ onlyOpts → o ≠ Opt.rldOnly →
      ∀ t : Settings, (applyOpt t o).isRLDistr = false := by
    intro o ho hno t
    simp [onlyOpts] at ho
    rcases ho with rfl | rfl | rfl | rfl
    · rfl
    · exact absurd rfl hno
    · rfl
    · rfl
  have killT : ∀ o : Opt, o ∈ onlyOpts → o ≠ Opt.tabOnly →
      ∀ t : Settings, (applyOpt t o).isTab = false := by
    intro o ho hno t
    simp [onlyOpts] at ho
    rcases ho with rfl | rfl | rfl | rfl
    · rfl
    · rfl
    · exact absurd rfl hno
    · rfl
  have killS : ∀ o : Opt, o ∈ onlyOpts → o ≠ Opt.scaOnly →
      ∀ t : Settings, (applyOpt t o).isScatter = false := by
    intro o ho hno t
    simp [onlyOpts] at ho
    rcases ho with rfl | rfl | rfl | rfl
    · rfl
    · rfl
    · rfl
    · exact absurd rfl hno
  obtain ⟨oF, hmF, hoF, hneF⟩ := pick Opt.figOnly (by simp [onlyOpts])
  obtain ⟨oR, hmR, hoR, hneR⟩ := pick Opt.rldOnly (by simp [onlyOpts])
  obtain ⟨oT, hmT, hoT, hneT⟩ := pick Opt.tabOnly (by simp [onlyOpts])
  obtain ⟨oS, hmS, hoS, hneS⟩ := pick Opt.scaOnly (by simp [onlyOpts])
  exact ⟨processOpts_proj_of_mem Settings.isFig false applyOpt_isFig_mono oF
      (killF oF hoF hneF) opts s od ws s' od' ws' hmF hp,
    processOpts_proj_of_mem Settings.isRLDistr false applyOpt_isRLDistr_mono oR
      (killR oR hoR hneR) opts s od ws s' od' ws' hmR hp,
    processOpts_proj_of_mem Settings.isTab false applyOpt_isTab_mono oT
      (killT oT hoT hneT) opts s od ws s' od' ws' hmT hp,
    processOpts_proj_of_mem Settings.isScatter false applyOpt_isScatter_mono oS
      (killS oS hoS hneS) opts s od ws s' od' ws' hmS hp⟩

end Lemmas

section Claims

/-- C10: the noise filters of main are applied only when exactly one
of --noisy and --noise-free is set: whenever the two flags agree (in
particular when both options are given), the noisy-only and
noise-free-only restrictions are both skipped and each full
algorithm data-set collection in dictAlg is processed unchanged. -/
theorem claim_C10 (gs : Settings) (h : gs.isNoisy = gs.isNoiseFree) :
    (∀ l : DSL, noiseFilter gs l = l) ∧
    ∀ inp : Input, filteredDictAlg gs inp = inp.dictAlg := by
  have h1 : ∀ l : DSL, noiseFilter gs l = l := by
    intro l
    simp only [noiseFilter]
    cases hv : gs.isNoiseFree
    · have hn : gs.isNoisy = false := by rw [h, hv]
      simp [hn, hv]
    · have hn : gs.isNoisy = true := by rw [h, hv]
      simp [hn, hv]
  refine ⟨h1, fun inp => ?_⟩
  unfold filteredDictAlg
  simp [h1]

/-- Witness for C10: with both --noisy and --noise-free set, a
concrete collection passes through the filter unchanged. -/
theorem claim_C10_witness :
    noiseFilter gsBoth [dsANoisy, dsA] = [dsANoisy, dsA] :=
  (claim_C10 gsBoth rfl).1 [dsANoisy, dsA]

/-- C8 counterexample: the run of main on argv [-v] changes the
module-level genericsettings.verbose flag (a verbosity switch, not a
plotting style setting) from its initial value false to true, so main
does mutate module-level state outside the plotting style
configuration. -/
theorem claim_C8_counterexample :
    processOpts [Opt.verbose] defaultSettings defaultSettings.outputdir [] =
      some ({ defaultSettings with verbose := true }, defaultSettings.outputdir, []) ∧
    defaultSettings.verbose = false :=
  ⟨rfl, rfl⟩

/-- C8 (amended): execution of main is sequential, but option
processing mutates the module-level genericsettings option flags
beyond plotting style configuration -- in particular --verbose sets
genericsettings.verbose, which no later option resets; among the
modelled genericsettings variables, isScaleUp and outputdir are read
but never written by the option loop (the -o option only rebinds the
local output directory). -/
theorem claim_C8 (opts : List Opt) (s : Settings) (od : String) (ws : List Event)
    (s' : Settings) (od' : String) (ws' : List Event)
    (hp : processOpts opts s od ws = some (s', od', ws')) :
    (Opt.verbose ∈ opts → s'.verbose = true) ∧
    s'.isScaleUp = s.isScaleUp ∧ s'.outputdir = s.outputdir := by
  have hsu : ∀ (t : Settings) (o : Opt), (applyOpt t o).isScaleUp = t.isScaleUp := by
    intro t o; cases o <;> rfl
  have hod : ∀ (t : Settings) (o : Opt), (applyOpt t o).outputdir = t.outputdir := by
    intro t o; cases o <;> rfl
  refine ⟨fun hm => ?_, ?_, ?_⟩
  · exact processOpts_proj_of_mem Settings.verbose true
      (by intro t o ht; cases o <;> simp [applyOpt, ht]) Opt.verbose
      (fun t => rfl) opts s od ws s' od' ws' hm hp
  · exact processOpts_proj_stable Settings.isScaleUp s.isScaleUp
      (by intro t o ht; rw [hsu]; exact ht) opts s od ws s' od' ws' hp rfl
  · exact processOpts_proj_stable Settings.outputdir s.outputdir
      (by intro t o ht; rw [hod]; exact ht) opts s od ws s' od' ws' hp rfl

/-- Witness for C8 at the concrete option list [-v]. -/
theorem claim_C8_witness :
    ({ defaultSettings with verbose := true } : Settings).verbose = true ∧
    ({ defaultSettings with verbose := true } : Settings).isScaleUp =
      defaultSettings.isScaleUp := by
  have h := claim_C8 [Opt.verbose] defaultSettings defaultSettings.outputdir []
    { defaultSettings with verbose := true } defaultSettings.outputdir [] rfl
  exact ⟨h.1 (by simp), h.2.1⟩

/-- C9: each of --fig-only, --rld-only, --tab-only and --sca-only
disables the other three output-category flags while leaving its own
unchanged (hence enabled, the defaults being enabled); consequently
any option list containing two or more distinct such options ends with
all four flags false, and the figure, runlength distribution, table
and scatter sections each produce nothing. -/
theorem claim_C9 :
    (∀ s : Settings,
      ((applyOpt s Opt.figOnly).isFig = s.isFig ∧
       (applyOpt s Opt.figOnly).isRLDistr = false ∧
       (applyOpt s Opt.figOnly).isTab = false ∧
       (applyOpt s Opt.figOnly).isScatter = false) ∧
      ((applyOpt s Opt.rldOnly).isRLDistr = s.isRLDistr ∧
       (applyOpt s Opt.rldOnly).isFig = false ∧
       (applyOpt s Opt.rldOnly).isTab = false ∧
       (applyOpt s Opt.rldOnly).isScatter = false) ∧
      ((applyOpt s Opt.tabOnly).isTab = s.isTab ∧
       (applyOpt s Opt.tabOnly).isFig = false ∧
       (applyOpt s Opt.tabOnly).isRLDistr = false ∧
       (applyOpt s Opt.tabOnly).isScatter = false) ∧
      ((applyOpt s Opt.scaOnly).isScatter = s.isScatter ∧
       (applyOpt s Opt.scaOnly).isFig = false ∧
       (applyOpt s Opt.scaOnly).isRLDistr = false ∧
       (applyOpt s Opt.scaOnly).isTab = false)) ∧
    (defaultSettings.isFig = true ∧ defaultSettings.isRLDistr = true ∧
     defaultSettings.isTab = true ∧ defaultSettings.isScatter = true) ∧
    ∀ (opts : List Opt) (o1 o2 : Opt) (s : Settings) (od : String) (ws : List Event)
      (s' : Settings) (od' : String) (ws' : List Event),
      o1 ∈ onlyOpts → o2 ∈ onlyOpts → o1 ≠ o2 → o1 ∈ opts → o2 ∈ opts →
      processOpts opts s od ws = some (s', od', ws') →
      s'.isFig = false ∧ s'.isRLDistr = false ∧ s'.isTab = false ∧
      s'.isScatter = false ∧ figEvents s' = [] ∧
      (∀ (env : Env) (a b : DSL), rldPhase env s' a b = [] ∧ scatterEvents s' a b = []) ∧
      ∀ dA : List (String × DSL), tabPhase s' dA = [] := by
  refine ⟨fun s => ⟨⟨rfl, rfl, rfl, rfl⟩, ⟨rfl, rfl, rfl, rfl⟩,
      ⟨rfl, rfl, rfl, rfl⟩, ⟨rfl, rfl, rfl, rfl⟩⟩, ⟨rfl, rfl, rfl, rfl⟩, ?_⟩
  intro opts o1 o2 s od ws s' od' ws' h1 h2 hne hm1 hm2 hp
  obtain ⟨hF, hR, hT, hS⟩ :=
    allFourFalse opts o1 o2 s od ws s' od' ws' h1 h2 hne hm1 hm2 hp
  exact ⟨hF, hR, hT, hS, by simp [figEvents, hF],
    fun env a b => ⟨by simp [rldPhase, hR], by simp [scatterEvents, hS]⟩,
    fun dA => by simp [tabPhase, hT]⟩

/-- Witness for C9 at the concrete option list
[--fig-only, --rld-only]. -/
theorem claim_C9_witness :
    gsNone.isFig = false ∧ gsNone.isRLDistr = false ∧ gsNone.isTab = false ∧
    gsNone.isScatter = false ∧ tabPhase gsNone [] = [] := by
  have h := claim_C9.2.2 [Opt.figOnly, Opt.rldOnly] Opt.figOnly Opt.rldOnly
    defaultSettings "ppdata" [] gsNone "ppdata" []
    (by simp [onlyOpts]) (by simp [onlyOpts]) (by simp)
    (by simp) (by simp) (by rfl)
  exact ⟨h.1, h.2.1, h.2.2.1, h.2.2.2.1, h.2.2.2.2.2.2 []⟩

/-- C2: main requires data of exactly two algorithms: whenever the run
reaches processInputArgs (valid options, nonempty arguments, valid
--settings value) and the derived number of algorithms differs from
two, main raises the ValueError before any post-processing output
event (the trace holds only option warnings); with exactly two
algorithms the count check passes and no ValueError arises. -/
theorem claim_C2 (env : Env) (inp : Input) (opts : List Opt) (args : List String)
    (gs : Settings) (od : String) (ws : List Event)
    (hg : inp.getoptResult = Except.ok (opts, args)) (ha : args ≠ [])
    (hp : processOpts opts defaultSettings defaultSettings.outputdir [] =
      some (gs, od, ws))
    (hs : gs.inputsettings = "color" ∨ gs.inputsettings = "grayscale" ∨
      gs.inputsettings = "black-white") :
    (inp.sortedAlgs.length ≠ 2 →
      main env inp = (Outcome.valueErr (needTwoMsg inp.sortedAlgs), ws) ∧
      ∀ e ∈ (main env inp).2, isOutputEvent e = false) ∧
    (inp.sortedAlgs.length = 2 → ∀ m, (main env inp).1 ≠ Outcome.valueErr m) := by
  constructor
  · intro h2
    have hb := mainBody_valueErr env inp opts args gs od ws hg ha hp hs h2
    have hmain : main env inp = (Outcome.valueErr (needTwoMsg inp.sortedAlgs), ws) := by
      unfold main
      rw [hb]
    refine ⟨hmain, ?_⟩
    rw [hmain]
    intro e he
    rcases processOpts_events opts defaultSettings defaultSettings.outputdir []
        gs od ws hp e he with h | ⟨nm, rfl⟩
    · exact absurd h (List.not_mem_nil e)
    · rfl
  · intro h2 m
    have hb := mainBody_reach env inp opts args gs od ws hg ha hp hs h2
    unfold main
    rw [hb]
    cases hmr : mainRest env gs inp with
    | error p =>
      obtain ⟨mm, evts⟩ := p
      simp
    | ok p =>
      obtain ⟨b, evts⟩ := p
      cases b with
      | helpExit => simp
      | earlyExit => simp
      | done r => simp
      | valueErr mv => exact absurd hmr (mainRest_ne_valueErr env gs inp mv evts)

/-- Witness for C2: a concrete run whose input folders yield three
algorithms ends in the ValueError. -/
theorem claim_C2_witness :
    main envW inpThree = (Outcome.valueErr (needTwoMsg inpThree.sortedAlgs), []) :=
  ((claim_C2 envW inpThree [] ["fA", "fB"] defaultSettings defaultSettings.outputdir []
      rfl (by simp) rfl (Or.inl rfl)).1 (by decide)).1

/-- C5: a Usage exception raised anywhere inside the try block of main
(bad option syntax from getopt, an unknown --settings value, missing
algorithm data, or a noise data mismatch) is caught, its message is
printed to the error stream and main finishes with result 2; result 2
arises in no other way, and every raised Usage message is of one of
those forms. -/
theorem claim_C5 (env : Env) (inp : Input) :
    ((∃ m evts, mainBody env inp = Except.error (m, evts)) ↔
      mainResult env inp = PyResult.intVal 2) ∧
    (∀ n, mainResult env inp = PyResult.intVal n → n = 2) ∧
    ∀ m evts, mainBody env inp = Except.error (m, evts) →
      main env inp = (Outcome.usageErr m, evts) ∧
      (inp.getoptResult = Except.error m ∨ (∃ s, m = settingsErrMsg s) ∨
       m = expectTwoMsg ∨ (∃ a, m = missingDataMsg a) ∨
       ∃ a b k0 k1 sd, m = dataMismatchMsg a b k0 k1 sd) := by
  refine ⟨?_, ?_, ?_⟩
  · cases hb : mainBody env inp with
    | error p =>
      obtain ⟨m, evts⟩ := p
      unfold mainResult main
      rw [hb]
      simp
    | ok p =>
      obtain ⟨b, evts⟩ := p
      unfold mainResult main
      rw [hb]
      cases b <;> simp
  · intro n hn
    unfold mainResult main at hn
    cases hb : mainBody env inp with
    | error p =>
      obtain ⟨m, evts⟩ := p
      rw [hb] at hn
      simp at hn
      omega
    | ok p =>
      obtain ⟨b, evts⟩ := p
      rw [hb] at hn
      cases b <;> simp at hn
  · intro m evts hb
    refine ⟨by unfold main; rw [hb], ?_⟩
    unfold mainBody at hb
    cases hg : inp.getoptResult with
    | error msg =>
      simp only [hg] at hb
      simp at hb
      exact Or.inl (by rw [hb.1])
    | ok pr =>
      obtain ⟨opts, args⟩ := pr
      simp only [hg] at hb
      by_cases ha : args = []
      · rw [if_pos ha] at hb
        simp at hb
      · rw [if_neg ha] at hb
        cases hpo : processOpts opts defaultSettings defaultSettings.outputdir [] with
        | none =>
          simp only [hpo] at hb
          simp at hb
        | some tr =>
          obtain ⟨gs, od, ws⟩ := tr
          simp only [hpo] at hb
          by_cases hs : gs.inputsettings = "color" ∨ gs.inputsettings = "grayscale" ∨
              gs.inputsettings = "black-white"
          · rw [if_pos hs] at hb
            by_cases h2 : 1 < 3 ∧ inp.sortedAlgs.length ≠ 2
            · rw [if_pos h2] at hb
              simp at hb
            · rw [if_neg h2] at hb
              cases hmr : mainRest env gs inp with
              | error p =>
                obtain ⟨mm, ev2⟩ := p
                rw [hmr] at hb
                simp at hb
                rcases mainRest_error_forms env gs inp mm ev2 hmr with h | ⟨a, h⟩ | ⟨a, b, k0, k1, sd, h⟩
                · exact Or.inr (Or.inr (Or.inl (hb.1 ▸ h)))
                · exact Or.inr (Or.inr (Or.inr (Or.inl ⟨a, hb.1 ▸ h⟩)))
                · exact Or.inr (Or.inr (Or.inr (Or.inr ⟨a, b, k0, k1, sd, hb.1 ▸ h⟩)))
              | ok p =>
                obtain ⟨b, ev2⟩ := p
                rw [hmr] at hb
                simp at hb
          · rw [if_neg hs] at hb
            simp at hb
            exact Or.inr (Or.inl ⟨gs.inputsettings, hb.1.symm⟩)

/-- Witness for C5: a concrete run with an unknown --settings value
finishes with result 2. -/
theorem claim_C5_witness : mainResult envW inpBad = PyResult.intVal 2 :=
  (claim_C5 envW inpBad).1.mp ⟨settingsErrMsg "weird", [], by rfl⟩

/-- Reduction of main on a run reaching the noise-mismatch check with
a non-empty symmetric difference. -/
theorem main_mismatch_eq (env : Env) (inp : Input) (opts : List Opt)
    (args : List String) (gs : Settings) (od : String) (ws : List Event)
    (hg : inp.getoptResult = Except.ok (opts, args)) (ha : args ≠ [])
    (hp : processOpts opts defaultSettings defaultSettings.outputdir [] =
      some (gs, od, ws))
    (hs : gs.inputsettings = "color" ∨ gs.inputsettings = "grayscale" ∨
      gs.inputsettings = "black-white")
    (h2 : inp.sortedAlgs.length = 2) (hne : inp.dsList ≠ [])
    (hbi : ¬((inp.dsList.any fun d => d.biobjective) ∧
             (inp.dsList.any fun d => !d.biobjective)))
    (h0 : dsList0of gs inp ≠ []) (h1 : dsList1of gs inp ≠ [])
    (hsym : noiseSymdiff env gs inp ≠ []) :
    main env inp =
      (Outcome.usageErr
        (dataMismatchMsg (alg0of inp) (alg1of inp)
          (noiseKeys (dsList0r env gs inp)) (noiseKeys (dsList1r env gs inp))
          (noiseSymdiff env gs inp)),
       ws ++ preMismatchEvents env gs inp) := by
  unfold main
  rw [mainBody_reach env inp opts args gs od ws hg ha hp hs h2,
    mainRest_mismatch env gs inp hne hbi (by omega) h0 h1 hsym]

/-- C1 counterexample: on a concrete input whose two collections
disagree on noise categories (one algorithm lists only noisy, the
other only noise-free data) the run does not warn and continue: it
finishes with the error result 2 and invokes no report generator, so
main does abort on this anomaly. -/
theorem claim_C1_counterexample :
    noiseSymdiff envW defaultSettings inpMismatch ≠ [] ∧
    mainResult envW inpMismatch = PyResult.intVal 2 ∧
    ((main envW inpMismatch).2.all fun e => !isReportCall e) = true := by
  refine ⟨by decide, by decide, by decide⟩

/-- C1 (amended): for every input whose two data-set collections
disagree on noise categories, main raises the Usage exception "Data
Mismatch" (suggesting the --noise-free or --noisy flags); the
exception is caught, the message printed to the error stream, and the
run aborts with result 2 before any report generator is invoked --
unlike mismatched instance sets and missing per-dimension data, this
anomaly is not a non-fatal warning. -/
theorem claim_C1 (env : Env) (inp : Input) (opts : List Opt)
    (args : List String) (gs : Settings) (od : String) (ws : List Event)
    (hg : inp.getoptResult = Except.ok (opts, args)) (ha : args ≠ [])
    (hp : processOpts opts defaultSettings defaultSettings.outputdir [] =
      some (gs, od, ws))
    (hs : gs.inputsettings = "color" ∨ gs.inputsettings = "grayscale" ∨
      gs.inputsettings = "black-white")
    (h2 : inp.sortedAlgs.length = 2) (hne : inp.dsList ≠ [])
    (hbi : ¬((inp.dsList.any fun d => d.biobjective) ∧
             (inp.dsList.any fun d => !d.biobjective)))
    (h0 : dsList0of gs inp ≠ []) (h1 : dsList1of gs inp ≠ [])
    (hsym : noiseSymdiff env gs inp ≠ []) :
    (main env inp).1 = Outcome.usageErr
      (dataMismatchMsg (alg0of inp) (alg1of inp)
        (noiseKeys (dsList0r env gs inp)) (noiseKeys (dsList1r env gs inp))
        (noiseSymdiff env gs inp)) ∧
    mainResult env inp = PyResult.intVal 2 ∧
    ∀ e ∈ (main env inp).2, isReportCall e = false := by
  have hmain := main_mismatch_eq env inp opts args gs od ws hg ha hp hs h2 hne hbi h0 h1 hsym
  refine ⟨by rw [hmain], by unfold mainResult; rw [hmain], ?_⟩
  rw [hmain]
  intro e he
  rcases List.mem_append.1 he with h | h
  · rcases processOpts_events opts defaultSettings defaultSettings.outputdir []
      gs od ws hp e h with h' | ⟨nm, rfl⟩
    · exact absurd h' (List.not_mem_nil e)
    · rfl
  · exact preMismatch_no_call env gs inp e h

/-- Witness for C1 at the concrete mismatched input. -/
theorem claim_C1_witness :
    (main envW inpMismatch).1 = Outcome.usageErr
      (dataMismatchMsg (alg0of inpMismatch) (alg1of inpMismatch)
        (noiseKeys (dsList0r envW defaultSettings inpMismatch))
        (noiseKeys (dsList1r envW defaultSettings inpMismatch))
        (noiseSymdiff envW defaultSettings inpMismatch)) :=
  (claim_C1 envW inpMismatch [] ["fA", "fB"] defaultSettings defaultSettings.outputdir []
    rfl (by simp) rfl (Or.inl rfl) (by decide) (by decide) (by decide)
    (by decide) (by decide) (by decide)).1

/-- Reduction of mainRest when the first algorithm has no data. -/
theorem mainRest_err0 (env : Env) (gs : Settings) (inp : Input)
    (hne : inp.dsList ≠ [])
    (hbi : ¬((inp.dsList.any fun d => d.biobjective) ∧
             (inp.dsList.any fun d => !d.biobjective)))
    (hlt : ¬inp.sortedAlgs.length < 2) (h0 : dsList0of gs inp = []) :
    mainRest env gs inp =
      Except.error (missingDataMsg (alg0of inp), restEvents2 env inp) := by
  unfold mainRest
  rw [if_neg hne, if_neg hbi, if_neg hlt, if_pos h0]

/-- Reduction of mainRest when the second algorithm has no data. -/
theorem mainRest_err1 (env : Env) (gs : Settings) (inp : Input)
    (hne : inp.dsList ≠ [])
    (hbi : ¬((inp.dsList.any fun d => d.biobjective) ∧
             (inp.dsList.any fun d => !d.biobjective)))
    (hlt : ¬inp.sortedAlgs.length < 2) (h0 : dsList0of gs inp ≠ [])
    (h1 : dsList1of gs inp = []) :
    mainRest env gs inp =
      Except.error (missingDataMsg (alg0of inp), restEvents2 env inp) := by
  unfold mainRest
  rw [if_neg hne, if_neg hbi, if_neg hlt, if_neg h0, if_pos h1]

/-- Every warning of the instance-set check ends up in the trace of
main, whichever way the run past it ends. -/
theorem restEvents1_in_main (env : Env) (inp : Input) (opts : List Opt)
    (args : List String) (gs : Settings) (od : String) (ws : List Event)
    (hg : inp.getoptResult = Except.ok (opts, args)) (ha : args ≠ [])
    (hp : processOpts opts defaultSettings defaultSettings.outputdir [] =
      some (gs, od, ws))
    (hs : gs.inputsettings = "color" ∨ gs.inputsettings = "grayscale" ∨
      gs.inputsettings = "black-white")
    (h2 : inp.sortedAlgs.length = 2) (hne : inp.dsList ≠ [])
    (hbi : ¬((inp.dsList.any fun d => d.biobjective) ∧
             (inp.dsList.any fun d => !d.biobjective))) :
    ∀ e ∈ restEvents1 env inp, e ∈ (main env inp).2 := by
  intro e he
  have hlt : ¬inp.sortedAlgs.length < 2 := by omega
  unfold main
  rw [mainBody_reach env inp opts args gs od ws hg ha hp hs h2]
  by_cases h0 : dsList0of gs inp = []
  · rw [mainRest_err0 env gs inp hne hbi hlt h0]
    show e ∈ ws ++ restEvents2 env inp
    exact List.mem_append_right _ (mem_restEvents2_of1 env inp e he)
  · by_cases h1 : dsList1of gs inp = []
    · rw [mainRest_err1 env gs inp hne hbi hlt h0 h1]
      show e ∈ ws ++ restEvents2 env inp
      exact List.mem_append_right _ (mem_restEvents2_of1 env inp e he)
    · by_cases hsym : noiseSymdiff env gs inp = []
      · rw [mainRest_done env gs inp hne hbi hlt h0 h1 hsym]
        show e ∈ ws ++ successEvents env gs inp
        exact List.mem_append_right _ (mem_success_of_pre env gs inp e
          (mem_preMismatch_of2 env gs inp e (mem_restEvents2_of1 env inp e he)))
      · rw [mainRest_mismatch env gs inp hne hbi hlt h0 h1 hsym]
        show e ∈ ws ++ preMismatchEvents env gs inp
        exact List.mem_append_right _
          (mem_preMismatch_of2 env gs inp e (mem_restEvents2_of1 env inp e he))

/-- C6 counterexample: a concrete data set (dsOdd, function F5) whose
instance multiset matches no instance set of interest but whose
dimension 7 is outside the dimensions to display is skipped by the
instance-set check: the run of main issues no warning naming its
function, contradicting the claim's "for every data set". -/
theorem claim_C6_counterexample :
    dsOdd ∈ inpOdd.dsList ∧
    instanceMatches envW.inset.instancesOfInterest
      (currInstances dsOdd.instancenumbers) = false ∧
    instanceWarnings envW.dimensionsToDisplay envW.inset.instancesOfInterest
      inpOdd.dsList = [] ∧
    ((main envW inpOdd).2.all fun e => !(e == Event.warnInstances dsOdd.funcId)) = true := by
  refine ⟨by decide, by decide, by decide, by decide⟩

/-- C6 (amended): the instance-set check is checked but not enforced:
for every data set whose dimension is among the dimensions to display
and whose instance multiset matches no instance set of interest, main
issues a warning naming the function; the check produces only
warnings -- it never raises, never removes a data set and never
modifies one (data sets with other dimensions are skipped without a
warning). -/
theorem claim_C6 (env : Env) (inp : Input) (opts : List Opt)
    (args : List String) (gs : Settings) (od : String) (ws : List Event)
    (hg : inp.getoptResult = Except.ok (opts, args)) (ha : args ≠ [])
    (hp : processOpts opts defaultSettings defaultSettings.outputdir [] =
      some (gs, od, ws))
    (hs : gs.inputsettings = "color" ∨ gs.inputsettings = "grayscale" ∨
      gs.inputsettings = "black-white")
    (h2 : inp.sortedAlgs.length = 2) (hne : inp.dsList ≠ [])
    (hbi : ¬((inp.dsList.any fun d => d.biobjective) ∧
             (inp.dsList.any fun d => !d.biobjective)))
    (i : DataSet) (hi : i ∈ inp.dsList) (hd : i.dim ∈ env.dimensionsToDisplay)
    (hnm : instanceMatches env.inset.instancesOfInterest
      (currInstances i.instancenumbers) = false) :
    Event.warnInstances i.funcId ∈ (main env inp).2 ∧
    ∀ e ∈ instanceWarnings env.dimensionsToDisplay env.inset.instancesOfInterest
        inp.dsList, ∃ f, e = Event.warnInstances f := by
  constructor
  · exact restEvents1_in_main env inp opts args gs od ws hg ha hp hs h2 hne hbi _
      (instanceWarnings_mem env.dimensionsToDisplay env.inset.instancesOfInterest
        inp.dsList i hi hd hnm)
  · exact fun e he => instanceWarnings_shape _ _ _ e he

/-- Witness for C6: the concrete input in which the first algorithm has a
dimension-2 record listing instance 3 instead of the expected instance
set. -/
theorem claim_C6_witness :
    Event.warnInstances dsOddDisplayed.funcId ∈ (main envW inpOddDisplayed).2 :=
  (claim_C6 envW inpOddDisplayed [] ["fA", "fB"] defaultSettings
    defaultSettings.outputdir [] rfl (by simp) rfl (Or.inl rfl) (by decide)
    (by decide) (by decide) dsOddDisplayed (by decide) (by decide) (by decide)).1

/-- Reduction of main on a fully well-formed run. -/
theorem main_done_eq (env : Env) (inp : Input) (opts : List Opt)
    (args : List String) (gs : Settings) (od : String) (ws : List Event)
    (hg : inp.getoptResult = Except.ok (opts, args)) (ha : args ≠ [])
    (hp : processOpts opts defaultSettings defaultSettings.outputdir [] =
      some (gs, od, ws))
    (hs : gs.inputsettings = "color" ∨ gs.inputsettings = "grayscale" ∨
      gs.inputsettings = "black-white")
    (h2 : inp.sortedAlgs.length = 2) (hne : inp.dsList ≠ [])
    (hbi : ¬((inp.dsList.any fun d => d.biobjective) ∧
             (inp.dsList.any fun d => !d.biobjective)))
    (h0 : dsList0of gs inp ≠ []) (h1 : dsList1of gs inp ≠ [])
    (hsym : noiseSymdiff env gs inp = []) :
    main env inp = (Outcome.success (dictByAlgRes inp.dsList),
      ws ++ successEvents env gs inp) := by
  unfold main
  rw [mainBody_reach env inp opts args gs od ws hg ha hp hs h2,
    mainRest_done env gs inp hne hbi (by omega) h0 h1 hsym]

/-- Membership in a successful trace from membership in one of its
chunks. -/
theorem mem_success_of_parts (env : Env) (gs : Settings) (inp : Input) (e : Event)
    (h : e ∈ preMismatchEvents env gs inp ∨
      e ∈ [Event.wroteHtml "ppfigs", Event.wroteHtml "ppscatter",
           Event.wroteHtml "pprldistr2", Event.wroteHtml "pptables"] ∨
      e ∈ figEvents gs ∨
      e ∈ rldPhase env gs (dsList0r env gs inp) (dsList1r env gs inp) ∨
      e ∈ scatterEvents gs (dsList1r env gs inp) (dsList0r env gs inp) ∨
      e ∈ tabPhase gs (filteredDictAlg gs inp) ∨
      e ∈ scaleEvents gs ∨
      e ∈ [Event.wroteHtml "two-algorithms"]) :
    e ∈ successEvents env gs inp := by
  unfold successEvents
  simp only [List.mem_append]
  tauto

/-- C7: for every well-formed pair of result folders -- two algorithms
found, nonempty and unmixed data, data present for both algorithms,
matching noise categories -- main completes with the grouped data
dictionary (no raised error, result different from the error code 2)
and writes the output artifacts: the HTML index pages, the LaTeX
command fragments, and the selected figure and table artifacts. -/
theorem claim_C7 (env : Env) (inp : Input) (opts : List Opt)
    (args : List String) (gs : Settings) (od : String) (ws : List Event)
    (hg : inp.getoptResult = Except.ok (opts, args)) (ha : args ≠ [])
    (hp : processOpts opts defaultSettings defaultSettings.outputdir [] =
      some (gs, od, ws))
    (hs : gs.inputsettings = "color" ∨ gs.inputsettings = "grayscale" ∨
      gs.inputsettings = "black-white")
    (h2 : inp.sortedAlgs.length = 2) (hne : inp.dsList ≠ [])
    (hbi : ¬((inp.dsList.any fun d => d.biobjective) ∧
             (inp.dsList.any fun d => !d.biobjective)))
    (h0 : dsList0of gs inp ≠ []) (h1 : dsList1of gs inp ≠ [])
    (hsym : noiseSymdiff env gs inp = []) :
    (main env inp).1 = Outcome.success (dictByAlgRes inp.dsList) ∧
    mainResult env inp = PyResult.dictVal (dictByAlgRes inp.dsList) ∧
    mainResult env inp ≠ PyResult.intVal 2 ∧
    Event.wroteHtml "ppfigs" ∈ (main env inp).2 ∧
    Event.wroteHtml "ppscatter" ∈ (main env inp).2 ∧
    Event.wroteHtml "pprldistr2" ∈ (main env inp).2 ∧
    Event.wroteHtml "pptables" ∈ (main env inp).2 ∧
    Event.wroteHtml "two-algorithms" ∈ (main env inp).2 ∧
    Event.prependLatex "algsfolder" ∈ (main env inp).2 ∧
    (gs.isFig = true → Event.callFig2 ∈ (main env inp).2) ∧
    (gs.isTab = true →
      Event.prependLatex "bbobpptablesmanylegend" ∈ (main env inp).2) := by
  have hmain := main_done_eq env inp opts args gs od ws hg ha hp hs h2 hne hbi h0 h1 hsym
  have hpre : Event.prependLatex "algsfolder" ∈ preMismatchEvents env gs inp := by
    unfold preMismatchEvents
    exact List.mem_append_left _ (List.mem_append_right _ (by simp))
  refine ⟨by rw [hmain], by unfold mainResult; rw [hmain],
    by unfold mainResult; rw [hmain]; simp, ?_, ?_, ?_, ?_, ?_, ?_, ?_, ?_⟩
  · rw [hmain]
    exact List.mem_append_right _
      (mem_success_of_parts env gs inp _ (Or.inr (Or.inl (by simp))))
  · rw [hmain]
    exact List.mem_append_right _
      (mem_success_of_parts env gs inp _ (Or.inr (Or.inl (by simp))))
  · rw [hmain]
    exact List.mem_append_right _
      (mem_success_of_parts env gs inp _ (Or.inr (Or.inl (by simp))))
  · rw [hmain]
    exact List.mem_append_right _
      (mem_success_of_parts env gs inp _ (Or.inr (Or.inl (by simp))))
  · rw [hmain]
    exact List.mem_append_right _
      (mem_success_of_parts env gs inp _
        (Or.inr (Or.inr (Or.inr (Or.inr (Or.inr (Or.inr (Or.inr (by simp)))))))))
  · rw [hmain]
    exact List.mem_append_right _ (mem_success_of_parts env gs inp _ (Or.inl hpre))
  · intro hF
    rw [hmain]
    exact List.mem_append_right _
      (mem_success_of_parts env gs inp _
        (Or.inr (Or.inr (Or.inl (by simp [figEvents, hF])))))
  · intro hT
    rw [hmain]
    refine List.mem_append_right _
      (mem_success_of_parts env gs inp _
        (Or.inr (Or.inr (Or.inr (Or.inr (Or.inr (Or.inl ?_)))))))
    unfold tabPhase
    rw [if_pos hT]
    exact List.mem_cons_self _ _

/-- Witness for C7 at the concrete well-formed input. -/
theorem claim_C7_witness :
    (main envW inpGood).1 = Outcome.success (dictByAlgRes inpGood.dsList) ∧
    Event.wroteHtml "two-algorithms" ∈ (main envW inpGood).2 := by
  have h := claim_C7 envW inpGood [] ["fA", "fB"] defaultSettings
    defaultSettings.outputdir [] rfl (by simp) rfl (Or.inl rfl) (by decide)
    (by decide) (by decide) (by decide) (by decide) (by decide)
  exact ⟨h.1, h.2.2.2.2.2.2.2.1⟩

/-- Shape of the events of a pprldistr2 loop iteration. -/
theorem rld2ForDim_shape (env : Env) (ds0 ds1 : DSL) (d : Nat) (e : Event)
    (h : e ∈ rld2ForDim env ds0 ds1 d) :
    (∃ dd sel a b, e = Event.callRld2 dd sel a b) ∨
      ∃ dd, e = Event.warnMissingData dd := by
  unfold rld2ForDim at h
  split at h
  · rcases List.mem_cons.1 h with rfl | h2
    · exact Or.inl ⟨_, _, _, _, rfl⟩
    · split at h2
      · simp at h2
        exact Or.inr ⟨_, h2⟩
      · simp only [List.mem_append, List.mem_map] at h2
        rcases h2 with ⟨g, _, rfl⟩ | ⟨g, _, rfl⟩
        · exact Or.inl ⟨_, _, _, _, rfl⟩
        · exact Or.inl ⟨_, _, _, _, rfl⟩
  · exact absurd h (List.not_mem_nil _)

/-- Shape of the events of a pprldistr.comp loop iteration. -/
theorem compForDim_shape (env : Env) (ds0 ds1 : DSL) (d : Nat) (e : Event)
    (h : e ∈ compForDim env ds0 ds1 d) :
    (∃ dd sel a b, e = Event.callComp dd sel a b) ∨
      ∃ dd, e = Event.warnMissingDataComp dd := by
  unfold compForDim at h
  split at h
  · rcases List.mem_cons.1 h with rfl | h2
    · exact Or.inl ⟨_, _, _, _, rfl⟩
    · split at h2
      · simp at h2
        exact Or.inr ⟨_, h2⟩
      · simp only [List.mem_append, List.mem_map] at h2
        rcases h2 with ⟨g, _, rfl⟩ | ⟨g, _, rfl⟩
        · exact Or.inl ⟨_, _, _, _, rfl⟩
        · exact Or.inl ⟨_, _, _, _, rfl⟩
  · exact absurd h (List.not_mem_nil _)

/-- C3: in the run length distribution section, the per-dimension
report generators are invoked exactly for the dimensions lying in the
intersection of the two dimension key sets restricted to the
dimensions of interest, with the aligned pair of per-dimension
collections as arguments (pprldistr2.main on (dictDim0[d], dictDim1[d]),
pprldistr.comp on (dictDim1[d], dictDim0[d]) outside the bi-objective
testbeds); a dimension present in only one of the two partitions
produces no event naming it: no report and no warning. -/
theorem claim_C3 (env : Env) (gs : Settings) (ds0 ds1 : DSL)
    (hR : gs.isRLDistr = true) :
    (∀ dim, Event.callRld2 dim GroupSel.all (byDim ds0 dim) (byDim ds1 dim) ∈
        rldPhase env gs ds0 ds1 ↔
      dim ∈ dimKeys ds0 ∧ dim ∈ dimKeys ds1 ∧ dim ∈ env.inset.rldDimsOfInterest) ∧
    (env.biObjTestbed = false →
      ∀ dim, Event.callComp dim GroupSel.all (byDim ds1 dim) (byDim ds0 dim) ∈
          rldPhase env gs ds0 ds1 ↔
        dim ∈ dimKeys ds0 ∧ dim ∈ dimKeys ds1 ∧ dim ∈ env.inset.rldDimsOfInterest) ∧
    ∀ dim, ((dim ∈ dimKeys ds0 ∧ dim ∉ dimKeys ds1) ∨
            (dim ∈ dimKeys ds1 ∧ dim ∉ dimKeys ds0)) →
      ∀ e ∈ rldPhase env gs ds0 ds1, eventMentionsDim dim e = false := by
  refine ⟨fun dim => ?_, fun hbio dim => ?_, fun dim honly e he => ?_⟩
  · rw [mem_rldPhase_iff env gs ds0 ds1 _ hR]
    constructor
    · intro h
      rcases h with h | ⟨d, hd, he⟩ | h | h | h | ⟨_, d, hd, he⟩ | ⟨_, h⟩
      · split at h <;> simp at h
      · obtain ⟨rfl, hint, -, -⟩ := (rld2ForDim_all_mem env ds0 ds1 d dim _ _).1 he
        have hm := mem_interDims.1 hd
        exact ⟨hm.1, hm.2, hint⟩
      · simp at h
      · simp at h
      · simp at h
      · rcases compForDim_shape env ds0 ds1 d _ he with ⟨dd, sel, a, b, heq⟩ | ⟨dd, heq⟩ <;>
          simp at heq
      · simp at h
    · rintro ⟨hk0, hk1, hint⟩
      exact Or.inr (Or.inl ⟨dim, mem_interDims.2 ⟨hk0, hk1⟩,
        (rld2ForDim_all_mem env ds0 ds1 dim dim _ _).2 ⟨rfl, hint, rfl, rfl⟩⟩)
  · rw [mem_rldPhase_iff env gs ds0 ds1 _ hR]
    constructor
    · intro h
      rcases h with h | ⟨d, hd, he⟩ | h | h | h | ⟨_, d, hd, he⟩ | ⟨_, h⟩
      · split at h <;> simp at h
      · rcases rld2ForDim_shape env ds0 ds1 d _ he with ⟨dd, sel, a, b, heq⟩ | ⟨dd, heq⟩ <;>
          simp at heq
      · simp at h
      · simp at h
      · simp at h
      · obtain ⟨rfl, hint, -, -⟩ := (compForDim_all_mem env ds0 ds1 d dim _ _).1 he
        have hm := mem_interDims.1 hd
        exact ⟨hm.1, hm.2, hint⟩
      · simp at h
    · rintro ⟨hk0, hk1, hint⟩
      exact Or.inr (Or.inr (Or.inr (Or.inr (Or.inr (Or.inl ⟨hbio, dim,
        mem_interDims.2 ⟨hk0, hk1⟩,
        (compForDim_all_mem env ds0 ds1 dim dim _ _).2 ⟨rfl, hint, rfl, rfl⟩⟩)))))
  · rcases (mem_rldPhase_iff env gs ds0 ds1 e hR).1 he with
      h | ⟨d, hd, he2⟩ | h | h | h | ⟨-, d, hd, he2⟩ | ⟨-, h⟩
    · split at h
      · simp at h
        subst h
        rfl
      · simp at h
    · cases hev : eventMentionsDim dim e
      · rfl
      · exfalso
        have hd2 := rld2ForDim_mentions env ds0 ds1 d dim e he2 hev
        subst hd2
        have hm := mem_interDims.1 hd
        rcases honly with ⟨-, hn⟩ | ⟨-, hn⟩
        · exact hn hm.2
        · exact hn hm.1
    · subst h; rfl
    · subst h; rfl
    · subst h; rfl
    · cases hev : eventMentionsDim dim e
      · rfl
      · exfalso
        have hd2 := compForDim_mentions env ds0 ds1 d dim e he2 hev
        subst hd2
        have hm := mem_interDims.1 hd
        rcases honly with ⟨-, hn⟩ | ⟨-, hn⟩
        · exact hn hm.2
        · exact hn hm.1
    · subst h; rfl

/-- Witness for C3: dimension 2 lies in both partitions and is of
interest, so its aligned call occurs; dimension 3 lies only in the
first partition and no event of the phase names it. -/
theorem claim_C3_witness :
    Event.callRld2 2 GroupSel.all (byDim [dsA, dsA3] 2) (byDim [dsB] 2) ∈
      rldPhase envW defaultSettings [dsA, dsA3] [dsB] ∧
    eventMentionsDim 3 (Event.callRld2 2 GroupSel.all (byDim [dsA, dsA3] 2)
      (byDim [dsB] 2)) = false := by
  have h := claim_C3 envW defaultSettings [dsA, dsA3] [dsB] rfl
  have hmem := (h.1 2).2 (by decide)
  exact ⟨hmem, h.2.2 3 (Or.inl (by decide)) _ hmem⟩

/-- C4: for a dimension of the processed intersection whose
per-dimension report generation fails with KeyError, main issues a
warning naming that dimension and the loop continues: every other
dimension of the intersection still gets its report invocation; the
same holds in the pprldistr.comp loop. -/
theorem claim_C4 (env : Env) (gs : Settings) (ds0 ds1 : DSL) (dim : Nat)
    (hR : gs.isRLDistr = true)
    (h0 : dim ∈ dimKeys ds0) (h1 : dim ∈ dimKeys ds1)
    (hint : dim ∈ env.inset.rldDimsOfInterest)
    (hf : env.pprldistr2Fails dim = true) :
    Event.warnMissingData dim ∈ rldPhase env gs ds0 ds1 ∧
    (∀ dim2, dim2 ∈ dimKeys ds0 → dim2 ∈ dimKeys ds1 →
      dim2 ∈ env.inset.rldDimsOfInterest →
      Event.callRld2 dim2 GroupSel.all (byDim ds0 dim2) (byDim ds1 dim2) ∈
        rldPhase env gs ds0 ds1) ∧
    (env.biObjTestbed = false → env.pprldistrCompFails dim = true →
      Event.warnMissingDataComp dim ∈ rldPhase env gs ds0 ds1) := by
  refine ⟨?_, ?_, ?_⟩
  · apply (mem_rldPhase_iff env gs ds0 ds1 _ hR).2
    refine Or.inr (Or.inl ⟨dim, mem_interDims.2 ⟨h0, h1⟩, ?_⟩)
    unfold rld2ForDim
    rw [if_pos hint]
    refine List.mem_cons.2 (Or.inr ?_)
    rw [if_pos hf]
    simp
  · intro dim2 h02 h12 hint2
    apply (mem_rldPhase_iff env gs ds0 ds1 _ hR).2
    exact Or.inr (Or.inl ⟨dim2, mem_interDims.2 ⟨h02, h12⟩,
      (rld2ForDim_all_mem env ds0 ds1 dim2 dim2 _ _).2 ⟨rfl, hint2, rfl, rfl⟩⟩)
  · intro hbio hcf
    apply (mem_rldPhase_iff env gs ds0 ds1 _ hR).2
    refine Or.inr (Or.inr (Or.inr (Or.inr (Or.inr (Or.inl ⟨hbio, dim,
      mem_interDims.2 ⟨h0, h1⟩, ?_⟩)))))
    unfold compForDim
    rw [if_pos hint]
    refine List.mem_cons.2 (Or.inr ?_)
    rw [if_pos hcf]
    simp

/-- Witness for C4: with missing dimension-2 data, the warning for
dimension 2 is issued and dimension 3 is still processed. -/
theorem claim_C4_witness :
    Event.warnMissingData 2 ∈
      rldPhase envFailW defaultSettings [dsA, dsA3] [dsB, dsB3] ∧
    Event.callRld2 3 GroupSel.all (byDim [dsA, dsA3] 3) (byDim [dsB, dsB3] 3) ∈
      rldPhase envFailW defaultSettings [dsA, dsA3] [dsB, dsB3] := by
  have h := claim_C4 envFailW defaultSettings [dsA, dsA3] [dsB, dsB3] 2 rfl
    (by decide) (by decide) (by decide) (by decide)
  exact ⟨h.1, h.2.1 3 (by decide) (by decide) (by decide)⟩

end Claims

end Coco
